import Mathlib

/-!
Shallow embedding of the `face-replacement` backend orchestration core:
the Freepik provider gateway (`src/backend/services/freepik_service.py`),
the request/response data model (`src/backend/models.py`), and the task
coordinator endpoints `generate_video` and `get_task_status`
(`src/backend/main.py`).

Network I/O is modelled by oracles: each provider call's raw HTTP outcome
(2xx body, non-2xx status error, timeout, other exception) is an input to
the gateway functions, and the coordinator consumes the gateway's result
records.  Python dict mutation of `tasks[task_id]` is modelled by returning
the updated record: note that in the source `task_data` aliases the stored
dict, so every field assignment is immediately visible in the store whether
or not `tasks[task_id] = task_data` is executed.
-/

namespace FaceReplacement

/-- `ModelType` enum from `models.py`. -/
inductive ModelType where
  | runway_act_two
  | seedream_kling
deriving DecidableEq, Repr

/-- `PipelineStage` enum from `models.py`. -/
inductive PipelineStage where
  | FRAME_EXTRACTION
  | FRAME_UPLOADED
  | IMAGE_EDIT_STARTED
  | IMAGE_EDIT_COMPLETED
  | VIDEO_STARTED
  | VIDEO_COMPLETED
  | PIPELINE_COMPLETED
  | FAILED
deriving DecidableEq, Repr

/-- `TaskStatus` enum from `models.py`. -/
inductive TaskStatus where
  | CREATED
  | IN_PROGRESS
  | PROCESSING
  | FINALIZING
  | READY
  | COMPLETED
  | FAILED
deriving DecidableEq, Repr

/-- Python `TaskStatus(s)` value-lookup on the str enum: succeeds exactly on
the seven enumerated tokens, raises `ValueError` (here: `none`) otherwise. -/
def TaskStatus.ofString? (s : String) : Option TaskStatus :=
  if s = "CREATED" then some .CREATED
  else if s = "IN_PROGRESS" then some .IN_PROGRESS
  else if s = "PROCESSING" then some .PROCESSING
  else if s = "FINALIZING" then some .FINALIZING
  else if s = "READY" then some .READY
  else if s = "COMPLETED" then some .COMPLETED
  else if s = "FAILED" then some .FAILED
  else none

/-- The string value of a `TaskStatus` member. -/
def TaskStatus.value : TaskStatus → String
  | .CREATED => "CREATED"
  | .IN_PROGRESS => "IN_PROGRESS"
  | .PROCESSING => "PROCESSING"
  | .FINALIZING => "FINALIZING"
  | .READY => "READY"
  | .COMPLETED => "COMPLETED"
  | .FAILED => "FAILED"

/-- The string value of a `PipelineStage` member. -/
def PipelineStage.value : PipelineStage → String
  | .FRAME_EXTRACTION => "FRAME_EXTRACTION"
  | .FRAME_UPLOADED => "FRAME_UPLOADED"
  | .IMAGE_EDIT_STARTED => "IMAGE_EDIT_STARTED"
  | .IMAGE_EDIT_COMPLETED => "IMAGE_EDIT_COMPLETED"
  | .VIDEO_STARTED => "VIDEO_STARTED"
  | .VIDEO_COMPLETED => "VIDEO_COMPLETED"
  | .PIPELINE_COMPLETED => "PIPELINE_COMPLETED"
  | .FAILED => "FAILED"

/-! ## Provider gateway (`freepik_service.py`)

Raw HTTP outcomes of one provider round trip.  `statusError` is the
`httpx.HTTPStatusError` raised by `raise_for_status` on a non-2xx status
code, carrying the response's status code and body text; `timeout` is a
deadline breach of the fixed 30-second `httpx.AsyncClient(timeout=30.0)`
deadline (an `httpx.TimeoutException`, which is not an `HTTPStatusError`);
`otherError` is any other exception.  In the Python source both `timeout`
and `otherError` are handled by the same `except Exception` clause; they
are kept distinct here so that statements about deadline breaches can be
made. -/

/-- HTTP outcome of a create (POST) call: a 2xx response carries
`data.task_id` and `data.status`. -/
inductive CreateHttpOutcome where
  | ok (task_id : String) (status : String)
  | statusError (code : Nat) (text : String)
  | timeout (msg : String)
  | otherError (msg : String)
deriving DecidableEq, Repr

/-- HTTP outcome of a status (GET) call: a 2xx response carries
`data.status` and `data.generated`. -/
inductive StatusHttpOutcome where
  | ok (status : String) (generated : List String)
  | statusError (code : Nat) (text : String)
  | timeout (msg : String)
  | otherError (msg : String)
deriving DecidableEq, Repr

/-- The dict returned by `FreepikClient.create_task`,
`create_seedream_edit_task` and `create_kling_task`:
`success`, `task_id`/`status` on success, `error`/`details` on failure,
and `transient` only when that key is present in the dict. -/
structure FreepikCreateResult where
  success : Bool
  task_id : String := ""
  status : String := ""
  error : String := ""
  details : Option String := none
  transient : Option Bool := none
deriving DecidableEq, Repr

/-- The dict returned by `FreepikClient.get_task_status`. -/
structure FreepikStatusResult where
  success : Bool
  task_id : String := ""
  status : String := ""
  result_urls : List String := []
  error : String := ""
  details : Option String := none
  transient : Option Bool := none
deriving DecidableEq, Repr

namespace FreepikClient

/-- `FreepikClient.create_task` (runway submit).  On `HTTPStatusError` the
failure dict carries `transient = 500 <= code < 600`; on any other
exception (timeouts included) the dict has no `transient` key. -/
def create_task (out : CreateHttpOutcome) : FreepikCreateResult :=
  match out with
  | .ok tid st =>
      { success := true, task_id := tid, status := st }
  | .statusError code text =>
      { success := false
        error := "HTTP error: " ++ toString code
        details := some text
        transient := some (decide (500 ≤ code ∧ code < 600)) }
  | .timeout msg => { success := false, error := msg }
  | .otherError msg => { success := false, error := msg }

/-- `FreepikClient.get_task_status`.  `template` is the configured status
URL template for the requested model (`none` when the model key is absent
from `_status_url_templates`). -/
def get_task_status (template : Option String) (task_id : String)
    (out : StatusHttpOutcome) : FreepikStatusResult :=
  match template with
  | none =>
      { success := false
        error := "Status endpoint not configured for model" }
  | some _ =>
      match out with
      | .ok st gen =>
          { success := true, task_id := task_id, status := st, result_urls := gen }
      | .statusError code text =>
          { success := false
            error := "HTTP error: " ++ toString code
            details := some text
            transient := some (decide (500 ≤ code ∧ code < 600)) }
      | .timeout msg => { success := false, error := msg }
      | .otherError msg => { success := false, error := msg }

/-- `FreepikClient.create_seedream_edit_task`.  `configured` models whether
`FREEPIK_SEEDREAM_EDIT_CREATE_URL` is set.  Note: unlike `create_task`,
the `HTTPStatusError` branch here sets no `transient` key. -/
def create_seedream_edit_task (configured : Bool) (out : CreateHttpOutcome) :
    FreepikCreateResult :=
  if ¬ configured then
    { success := false, error := "FREEPIK_SEEDREAM_EDIT_CREATE_URL is not set" }
  else
    match out with
    | .ok tid st => { success := true, task_id := tid, status := st }
    | .statusError code text =>
        { success := false
          error := "HTTP error: " ++ toString code
          details := some text }
    | .timeout msg => { success := false, error := msg }
    | .otherError msg => { success := false, error := msg }

/-- `FreepikClient.create_kling_task`.  Same shape as
`create_seedream_edit_task`: no `transient` key on any failure. -/
def create_kling_task (configured : Bool) (out : CreateHttpOutcome) :
    FreepikCreateResult :=
  if ¬ configured then
    { success := false, error := "FREEPIK_KLING_CREATE_URL is not set" }
  else
    match out with
    | .ok tid st => { success := true, task_id := tid, status := st }
    | .statusError code text =>
        { success := false
          error := "HTTP error: " ++ toString code
          details := some text }
    | .timeout msg => { success := false, error := msg }
    | .otherError msg => { success := false, error := msg }

end FreepikClient

/-! ## Data model (`models.py`, `main.py`) -/

/-- `DirectUrls` model. -/
structure DirectUrls where
  character_url : String
  reference_url : String
deriving DecidableEq, Repr

/-- `GenerationSettings` model. -/
structure GenerationSettings where
  model : ModelType
  ratio : String
  expression_intensity : Nat
  body_control : Bool
  seed : Option Nat
deriving DecidableEq, Repr

/-- `GenerateRequest` model, before `model_post_init` validation. -/
structure GenerateRequest where
  upload_id : Option String
  direct_urls : Option DirectUrls
  settings : GenerationSettings
  frame_url : Option String
deriving DecidableEq, Repr

/-- `GenerateRequest.model_post_init`: rejects a request that supplies
neither or both of `upload_id` and `direct_urls`.  A `ValueError` raised
here surfaces as a request-validation failure (HTTP 422) and the endpoint
handler never runs. -/
def GenerateRequest.model_post_init (r : GenerateRequest) : Except String Unit :=
  if r.upload_id.isNone ∧ r.direct_urls.isNone then
    .error "Either upload_id or direct_urls must be provided"
  else if r.upload_id.isSome ∧ r.direct_urls.isSome then
    .error "Cannot provide both upload_id and direct_urls"
  else
    .ok ()

/-- An upload record in the `uploads` dict (the fields `generate_video`
reads). -/
structure UploadRecord where
  character_url : String
  reference_url : String
deriving DecidableEq, Repr

/-- A task record in the `tasks` dict (`main.py`, `generate_video`). -/
structure TaskRecord where
  upload_id : Option String
  direct_urls : Option DirectUrls
  character_url : String
  reference_url : String
  status : String
  settings : GenerationSettings
  model : ModelType
  frame_url : Option String
  pipeline_stage : Option PipelineStage
  seedream_task_id : Option String
  kling_task_id : Option String
  intermediate_url : Option String
  result_urls : List String
deriving DecidableEq, Repr

/-- `StatusResponse` model. -/
structure StatusResponse where
  task_id : String
  status : TaskStatus
  result_urls : List String := []
  progress_stage : Option String := none
  pipeline_stage : Option PipelineStage := none
  frame_url : Option String := none
  intermediate_url : Option String := none
  model_used : Option ModelType := none
deriving DecidableEq, Repr

/-- `GenerateResponse` model. -/
structure GenerateResponse where
  task_id : String
  status : String
deriving DecidableEq, Repr

/-- Outcome of an endpoint handler: a response value or an
`HTTPException(status_code, detail)` serialized by the error handler. -/
inductive ApiResult (α : Type) where
  | ok (v : α)
  | httpError (code : Nat) (detail : String)
deriving DecidableEq, Repr

/-- Everything observable about one `get_task_status` request: the task
record after the request (Python mutates `tasks[task_id]` in place through
the `task_data` alias), the HTTP-level outcome, how many provider poll and
submit calls were made, and the `input_image_url` passed to
`create_kling_task` when the chained video submission was issued. -/
structure StatusStepResult where
  task : TaskRecord
  response : ApiResult StatusResponse
  pollCalls : Nat
  submitCalls : Nat
  submitInput : Option String
deriving DecidableEq, Repr

/-- The `progress_stage_map` dict of `get_task_status` with its
`.get(status, status)` fallback: unknown tokens map to themselves. -/
def progress_stage_map (status : String) : String :=
  if status = "CREATED" then "Uploaded"
  else if status = "IN_PROGRESS" then "In Progress"
  else if status = "PROCESSING" then "Processing"
  else if status = "FINALIZING" then "Finalizing"
  else if status = "READY" then "Ready"
  else if status = "COMPLETED" then "Ready"
  else if status = "FAILED" then "Failed"
  else status

/-- Python truthiness of `result.get("transient")`: the key must be present
and `True`. -/
def transientTruthy (t : Option Bool) : Bool := t = some true

/-- Build a `StatusResponse` whose `status` field is `TaskStatus(s)`:
raises `ValueError` (caught by the handler's `except Exception`, which
re-raises `HTTPException(500, str(e))`) when `s` is not an enumerated
token. -/
def mkStatusResponse (s : String) (f : TaskStatus → StatusResponse) :
    ApiResult StatusResponse :=
  match TaskStatus.ofString? s with
  | some st => .ok (f st)
  | none => .httpError 500 ("'" ++ s ++ "' is not a valid TaskStatus")

/-! ## `get_task_status` endpoint (`main.py`)

The endpoint is modelled per task record: `t` is `tasks[task_id]`, `poll`
is the result of the (at most one) `freepik_client.get_task_status` call
the request makes, and `submit` the result of the (at most one) chained
`freepik_client.create_kling_task` call.  `pollCalls`/`submitCalls` count
how many of those provider calls the request actually issued. -/

/-- One `get_task_status` request for task `task_id` with stored record
`t`, given the provider-call outcomes `poll` and `submit`. -/
def get_task_status (task_id : String) (t : TaskRecord)
    (poll : FreepikStatusResult) (submit : FreepikCreateResult) :
    StatusStepResult :=
  match t.model with
  | .runway_act_two =>
      if ¬ poll.success then
        if transientTruthy poll.transient then
          { task := t
            response := mkStatusResponse t.status (fun st =>
              { task_id := task_id
                status := st
                result_urls := t.result_urls
                progress_stage := some (progress_stage_map t.status)
                model_used := some t.model })
            pollCalls := 1, submitCalls := 0, submitInput := none }
        else
          { task := t, response := .httpError 500 poll.error
            pollCalls := 1, submitCalls := 0, submitInput := none }
      else
        let t' : TaskRecord :=
          { t with status := poll.status
                   result_urls :=
                     if poll.result_urls ≠ [] then poll.result_urls
                     else t.result_urls }
        { task := t'
          response := mkStatusResponse poll.status (fun st =>
            { task_id := task_id
              status := st
              result_urls := poll.result_urls
              progress_stage := some (progress_stage_map poll.status)
              model_used := some t.model })
          pollCalls := 1, submitCalls := 0, submitInput := none }
  | .seedream_kling =>
      let stage := t.pipeline_stage.getD .IMAGE_EDIT_STARTED
      if stage = .IMAGE_EDIT_STARTED ∨ stage = .FRAME_UPLOADED then
        -- Stage 1: check Seedream Edit
        if ¬ poll.success then
          if transientTruthy poll.transient then
            { task := t
              response := mkStatusResponse t.status (fun st =>
                { task_id := task_id
                  status := st
                  progress_stage := some t.status
                  pipeline_stage := some stage
                  frame_url := t.frame_url
                  intermediate_url := t.intermediate_url
                  result_urls := t.result_urls
                  model_used := some t.model })
              pollCalls := 1, submitCalls := 0, submitInput := none }
          else
            { task := t, response := .httpError 500 poll.error
              pollCalls := 1, submitCalls := 0, submitInput := none }
        else if poll.status = "COMPLETED" then
          match poll.result_urls with
          | [] =>
              -- `edit_result.get("result_urls", [None])[0]` raises
              -- IndexError on an empty list, before any mutation
              { task := t
                response := .httpError 500 "list index out of range"
                pollCalls := 1, submitCalls := 0, submitInput := none }
          | u :: _ =>
              let t₁ : TaskRecord :=
                { t with intermediate_url := some u
                         pipeline_stage := some .IMAGE_EDIT_COMPLETED }
              if ¬ submit.success then
                { task := { t₁ with pipeline_stage := some .FAILED }
                  response := .httpError 500 submit.error
                  pollCalls := 1, submitCalls := 1, submitInput := some u }
              else
                { task :=
                    { t₁ with kling_task_id := some submit.task_id
                              pipeline_stage := some .VIDEO_STARTED
                              status := submit.status }
                  response := mkStatusResponse submit.status (fun st =>
                    { task_id := task_id
                      status := st
                      progress_stage := some "VIDEO_STARTED"
                      pipeline_stage := some .VIDEO_STARTED
                      frame_url := t.frame_url
                      intermediate_url := some u
                      result_urls := []
                      model_used := some t.model })
                  pollCalls := 1, submitCalls := 1, submitInput := some u }
        else if poll.status = "FAILED" then
          { task := { t with pipeline_stage := some .FAILED
                             status := poll.status }
            response := .ok
              { task_id := task_id
                status := .FAILED
                progress_stage := some "FAILED"
                pipeline_stage := some .FAILED
                model_used := some t.model }
            pollCalls := 1, submitCalls := 0, submitInput := none }
        else
          { task := { t with status := poll.status }
            response := mkStatusResponse poll.status (fun st =>
              { task_id := task_id
                status := st
                progress_stage := some poll.status
                pipeline_stage := some stage
                frame_url := t.frame_url
                model_used := some t.model })
            pollCalls := 1, submitCalls := 0, submitInput := none }
      else if stage = .VIDEO_STARTED then
        -- Stage 2: check Kling
        if ¬ poll.success then
          if transientTruthy poll.transient then
            { task := t
              response := mkStatusResponse t.status (fun st =>
                { task_id := task_id
                  status := st
                  progress_stage := some t.status
                  pipeline_stage := some stage
                  frame_url := t.frame_url
                  intermediate_url := t.intermediate_url
                  result_urls := t.result_urls
                  model_used := some t.model })
              pollCalls := 1, submitCalls := 0, submitInput := none }
          else
            { task := t, response := .httpError 500 poll.error
              pollCalls := 1, submitCalls := 0, submitInput := none }
        else if poll.status = "COMPLETED" then
          { task :=
              { t with pipeline_stage := some .PIPELINE_COMPLETED
                       status := poll.status
                       result_urls :=
                         if poll.result_urls ≠ [] then poll.result_urls
                         else t.result_urls }
            response := .ok
              { task_id := task_id
                status := .COMPLETED
                progress_stage := some "PIPELINE_COMPLETED"
                pipeline_stage := some .PIPELINE_COMPLETED
                frame_url := t.frame_url
                intermediate_url := t.intermediate_url
                result_urls := poll.result_urls
                model_used := some t.model }
            pollCalls := 1, submitCalls := 0, submitInput := none }
        else if poll.status = "FAILED" then
          { task := { t with pipeline_stage := some .FAILED
                             status := poll.status }
            response := .ok
              { task_id := task_id
                status := .FAILED
                progress_stage := some "FAILED"
                pipeline_stage := some .FAILED
                intermediate_url := t.intermediate_url
                model_used := some t.model }
            pollCalls := 1, submitCalls := 0, submitInput := none }
        else
          { task := { t with status := poll.status }
            response := mkStatusResponse poll.status (fun st =>
              { task_id := task_id
                status := st
                progress_stage := some poll.status
                pipeline_stage := some .VIDEO_STARTED
                intermediate_url := t.intermediate_url
                frame_url := t.frame_url
                model_used := some t.model })
            pollCalls := 1, submitCalls := 0, submitInput := none }
      else
        -- Fallback: terminal or unexpected stages; no provider call
        { task := t
          response := mkStatusResponse t.status (fun st =>
            { task_id := task_id
              status := st
              progress_stage :=
                some ((t.pipeline_stage.map PipelineStage.value).getD "PROCESSING")
              pipeline_stage := t.pipeline_stage
              frame_url := t.frame_url
              intermediate_url := t.intermediate_url
              result_urls := t.result_urls
              model_used := some t.model })
          pollCalls := 0, submitCalls := 0, submitInput := none }

/-- The stored record after a sequence of status requests, each with its
own pair of provider-call outcomes. -/
def runStatusRequests (task_id : String) (t : TaskRecord)
    (oracles : List (FreepikStatusResult × FreepikCreateResult)) : TaskRecord :=
  oracles.foldl (fun acc o => (get_task_status task_id acc o.1 o.2).task) t

/-! ## `generate_video` endpoint (`main.py`) -/

/-- Association-list read, mirroring Python dict lookup. -/
def dictGet {α : Type} (store : List (String × α)) (k : String) : Option α :=
  match store with
  | [] => none
  | (k', v) :: rest => if k' = k then some v else dictGet rest k

/-- Association-list write, mirroring Python dict assignment (the newest
binding shadows older ones for `dictGet`). -/
def dictInsert {α : Type} (store : List (String × α)) (k : String) (v : α) :
    List (String × α) :=
  (k, v) :: store

/-- Everything observable about one `generate_video` request: the task
store after the request, the HTTP-level outcome, and the number of
provider submit calls made. -/
structure GenerateStepResult where
  tasks : List (String × TaskRecord)
  response : ApiResult GenerateResponse
  submitCalls : Nat
deriving DecidableEq, Repr

/-- Body of `generate_video` after input URLs are resolved, given the
outcomes `runwaySubmit` (of `freepik_client.create_task`) and `editSubmit`
(of `freepik_client.create_seedream_edit_task`) for whichever single
submit the chosen model issues. -/
def generate_video_resolved (tasks : List (String × TaskRecord))
    (request : GenerateRequest) (character_url reference_url : String)
    (runwaySubmit editSubmit : FreepikCreateResult) : GenerateStepResult :=
  match request.settings.model with
  | .runway_act_two =>
      if ¬ runwaySubmit.success then
        { tasks := tasks
          response :=
            .httpError 500 ("Failed to create task: " ++ runwaySubmit.error)
          submitCalls := 1 }
      else
        let record : TaskRecord :=
          { upload_id := request.upload_id
            direct_urls := request.direct_urls
            character_url := character_url
            reference_url := reference_url
            status := runwaySubmit.status
            settings := request.settings
            model := request.settings.model
            frame_url := none
            pipeline_stage := none
            seedream_task_id := none
            kling_task_id := none
            intermediate_url := none
            result_urls := [] }
        { tasks := dictInsert tasks runwaySubmit.task_id record
          response := .ok
            { task_id := runwaySubmit.task_id, status := runwaySubmit.status }
          submitCalls := 1 }
  | .seedream_kling =>
      match request.frame_url with
      | none =>
          { tasks := tasks
            response := .httpError 400 "frame_url is required for pipeline model"
            submitCalls := 0 }
      | some _ =>
          if ¬ editSubmit.success then
            { tasks := tasks
              response := .httpError 500 editSubmit.error
              submitCalls := 1 }
          else
            let record : TaskRecord :=
              { upload_id := request.upload_id
                direct_urls := request.direct_urls
                character_url := character_url
                reference_url := reference_url
                status := editSubmit.status
                settings := request.settings
                model := request.settings.model
                frame_url := request.frame_url
                pipeline_stage := some .IMAGE_EDIT_STARTED
                seedream_task_id := some editSubmit.task_id
                kling_task_id := none
                intermediate_url := none
                result_urls := [] }
            { tasks := dictInsert tasks editSubmit.task_id record
              response := .ok
                { task_id := editSubmit.task_id, status := editSubmit.status }
              submitCalls := 1 }

/-- The `generate_video` handler body: resolve input URLs from the upload
store or the request's direct URLs, then submit. -/
def generate_video (uploads : List (String × UploadRecord))
    (tasks : List (String × TaskRecord)) (request : GenerateRequest)
    (runwaySubmit editSubmit : FreepikCreateResult) : GenerateStepResult :=
  match request.upload_id with
  | some uid =>
      match dictGet uploads uid with
      | none =>
          { tasks := tasks
            response := .httpError 404 ("Upload not found: " ++ uid)
            submitCalls := 0 }
      | some u =>
          generate_video_resolved tasks request u.character_url u.reference_url
            runwaySubmit editSubmit
  | none =>
      match request.direct_urls with
      | some d =>
          generate_video_resolved tasks request d.character_url d.reference_url
            runwaySubmit editSubmit
      | none =>
          -- unreachable after `model_post_init`; in Python this would be an
          -- `AttributeError` on `None.character_url`, re-raised as a 500
          { tasks := tasks
            response := .httpError 500 "AttributeError"
            submitCalls := 0 }

/-- The full `/api/generate` route: request-body validation
(`model_post_init`, surfaced as HTTP 422 before the handler runs) followed
by the `generate_video` handler. -/
def api_generate (uploads : List (String × UploadRecord))
    (tasks : List (String × TaskRecord)) (request : GenerateRequest)
    (runwaySubmit editSubmit : FreepikCreateResult) : GenerateStepResult :=
  match request.model_post_init with
  | .error msg =>
      { tasks := tasks, response := .httpError 422 msg, submitCalls := 0 }
  | .ok _ =>
      generate_video uploads tasks request runwaySubmit editSubmit

/-! ## Derived notions used by the statements -/

/-- The effective pipeline stage read by the coordinator:
`task_data.get("pipeline_stage", PipelineStage.IMAGE_EDIT_STARTED)`. -/
def stageOf (t : TaskRecord) : PipelineStage :=
  t.pipeline_stage.getD .IMAGE_EDIT_STARTED

/-- Position of a stage in the defined stage order
`IMAGE_EDIT_STARTED → IMAGE_EDIT_COMPLETED → VIDEO_STARTED →
PIPELINE_COMPLETED`; `FAILED` is ranked above all of them so that a jump
to `FAILED` is covered separately in the statements. -/
def stageRank : PipelineStage → Nat
  | .IMAGE_EDIT_STARTED => 0
  | .IMAGE_EDIT_COMPLETED => 1
  | .VIDEO_STARTED => 2
  | .PIPELINE_COMPLETED => 3
  | .FAILED => 4
  | .FRAME_EXTRACTION => 0
  | .FRAME_UPLOADED => 0
  | .VIDEO_COMPLETED => 0

/-- The stages a TWO_STEP task created through `generate_video` can ever
hold: the four ordered stages plus the absorbing `FAILED`. -/
def OrderedStage (s : PipelineStage) : Prop :=
  s = .IMAGE_EDIT_STARTED ∨ s = .IMAGE_EDIT_COMPLETED ∨ s = .VIDEO_STARTED ∨
    s = .PIPELINE_COMPLETED ∨ s = .FAILED

instance (s : PipelineStage) : Decidable (OrderedStage s) := by
  unfold OrderedStage; infer_instance

/-! ### Concrete fixtures used by witnesses and counterexamples -/

/-- Settings of a TWO_STEP (seedream + kling) job. -/
def sampleSettingsTwoStep : GenerationSettings :=
  { model := .seedream_kling, ratio := "1280:720", expression_intensity := 3
    body_control := true, seed := none }

/-- Settings of a SINGLE_STEP (runway) job. -/
def sampleSettingsSingle : GenerationSettings :=
  { model := .runway_act_two, ratio := "1280:720", expression_intensity := 3
    body_control := true, seed := none }

/-- A TWO_STEP task as `generate_video` creates it. -/
def sampleTwoStepTask : TaskRecord :=
  { upload_id := none
    direct_urls := some { character_url := "https://cdn/c.png", reference_url := "https://cdn/r.mp4" }
    character_url := "https://cdn/c.png"
    reference_url := "https://cdn/r.mp4"
    status := "CREATED"
    settings := sampleSettingsTwoStep
    model := .seedream_kling
    frame_url := some "https://cdn/f.png"
    pipeline_stage := some .IMAGE_EDIT_STARTED
    seedream_task_id := some "sd-1"
    kling_task_id := none
    intermediate_url := none
    result_urls := [] }

/-- A SINGLE_STEP task as `generate_video` creates it. -/
def sampleSingleStepTask : TaskRecord :=
  { upload_id := none
    direct_urls := some { character_url := "https://cdn/c.png", reference_url := "https://cdn/r.mp4" }
    character_url := "https://cdn/c.png"
    reference_url := "https://cdn/r.mp4"
    status := "CREATED"
    settings := sampleSettingsSingle
    model := .runway_act_two
    frame_url := none
    pipeline_stage := none
    seedream_task_id := none
    kling_task_id := none
    intermediate_url := none
    result_urls := [] }

/-- A successful in-progress poll result. -/
def pollInProgress : FreepikStatusResult :=
  { success := true, task_id := "sd-1", status := "IN_PROGRESS" }

/-- A successful completed poll result with one produced URL. -/
def pollCompleted : FreepikStatusResult :=
  { success := true, task_id := "sd-1", status := "COMPLETED"
    result_urls := ["https://cdn/x.png"] }

/-- A transient (5xx) poll failure. -/
def pollTransientFail : FreepikStatusResult :=
  { success := false, error := "HTTP error: 502", details := some "bad gateway"
    transient := some true }

/-- A fatal (4xx) poll failure. -/
def pollFatalFail : FreepikStatusResult :=
  { success := false, error := "HTTP error: 404", details := some "not found"
    transient := some false }

/-- A successful provider submit result. -/
def submitOK : FreepikCreateResult :=
  { success := true, task_id := "kl-1", status := "CREATED" }

/-- A failed provider submit result. -/
def submitFail : FreepikCreateResult :=
  { success := false, error := "HTTP error: 400", details := some "bad request" }

/-- A successful submit whose initial provider status token is not one of
the seven `TaskStatus` members. -/
def submitOKUnknownStatus : FreepikCreateResult :=
  { success := true, task_id := "kl-1", status := "queued" }

/-- A successful poll whose status token is not one of the seven
`TaskStatus` members. -/
def pollUnknownStatus : FreepikStatusResult :=
  { success := true, task_id := "rw-1", status := "QUEUED" }

/-- A SINGLE_STEP task whose stored status is an unrecognized provider
token (reachable: creation and the still-running branches store the
provider status verbatim). -/
def taskUnknownStoredStatus : TaskRecord :=
  { sampleSingleStepTask with status := "queued" }

/-- A TWO_STEP generate request with no frame URL whose upload reference
is unknown. -/
def reqTwoStepNoFrameUnknownUpload : GenerateRequest :=
  { upload_id := some "u0", direct_urls := none
    settings := sampleSettingsTwoStep, frame_url := none }

/-- A generate request with neither an upload reference nor direct URLs. -/
def reqNeither : GenerateRequest :=
  { upload_id := none, direct_urls := none
    settings := sampleSettingsSingle, frame_url := none }

/-- A generate request with both an upload reference and direct URLs. -/
def reqBoth : GenerateRequest :=
  { upload_id := some "u1"
    direct_urls := some { character_url := "https://cdn/c.png", reference_url := "https://cdn/r.mp4" }
    settings := sampleSettingsSingle, frame_url := none }

/-- A TWO_STEP generate request with direct URLs but no frame URL. -/
def reqTwoStepNoFrameDirect : GenerateRequest :=
  { upload_id := none
    direct_urls := some { character_url := "https://cdn/c.png", reference_url := "https://cdn/r.mp4" }
    settings := sampleSettingsTwoStep, frame_url := none }

/-- A SINGLE_STEP generate request with direct URLs. -/
def reqSingleDirect : GenerateRequest :=
  { upload_id := none
    direct_urls := some { character_url := "https://cdn/c.png", reference_url := "https://cdn/r.mp4" }
    settings := sampleSettingsSingle, frame_url := none }

/-- A TWO_STEP generate request with direct URLs and a frame URL. -/
def reqTwoStepFull : GenerateRequest :=
  { upload_id := none
    direct_urls := some { character_url := "https://cdn/c.png", reference_url := "https://cdn/r.mp4" }
    settings := sampleSettingsTwoStep, frame_url := some "https://cdn/f.png" }

/-- The response of a successful in-progress poll on the sample
SINGLE_STEP task. -/
def respSingleInProgress : StatusResponse :=
  { task_id := "rw-1"
    status := .IN_PROGRESS
    result_urls := []
    progress_stage := some "In Progress"
    pipeline_stage := none
    frame_url := none
    intermediate_url := none
    model_used := some .runway_act_two }

/-! ### Helper lemmas about one `get_task_status` step -/

/-- A status request never changes the stored model. -/
lemma step_model_eq (task_id : String) (t : TaskRecord)
    (poll : FreepikStatusResult) (submit : FreepikCreateResult) :
    (get_task_status task_id t poll submit).task.model = t.model := by
  rcases t with ⟨uid, du, cu, ru, st, se, mo, fu, ps, sti, kti, iu, rus⟩
  cases mo <;> simp only [get_task_status] <;>
    repeat' split <;> try simp_all

/-- Exhaustive description of the stage transitions one TWO_STEP status
request can make. -/
lemma step_stage_cases (task_id : String) (t : TaskRecord)
    (poll : FreepikStatusResult) (submit : FreepikCreateResult)
    (hm : t.model = .seedream_kling) :
    let s' := stageOf (get_task_status task_id t poll submit).task
    s' = stageOf t ∨ s' = .FAILED ∨
      ((stageOf t = .IMAGE_EDIT_STARTED ∨ stageOf t = .FRAME_UPLOADED) ∧
        s' = .VIDEO_STARTED) ∨
      (stageOf t = .VIDEO_STARTED ∧ s' = .PIPELINE_COMPLETED) := by
  intro s'
  rcases t with ⟨uid, du, cu, ru, st, se, mo, fu, ps, sti, kti, iu, rus⟩
  cases mo
  · simp at hm
  · simp only [get_task_status, stageOf, s'] at *
    repeat' split <;> try simp_all

/-- At a terminal or unexpected stage the request makes no provider call
and leaves the record unchanged. -/
lemma step_fallback (task_id : String) (t : TaskRecord)
    (poll : FreepikStatusResult) (submit : FreepikCreateResult)
    (hm : t.model = .seedream_kling)
    (hs : stageOf t ≠ .IMAGE_EDIT_STARTED) (hs' : stageOf t ≠ .FRAME_UPLOADED)
    (hs'' : stageOf t ≠ .VIDEO_STARTED) :
    (get_task_status task_id t poll submit).task = t ∧
    (get_task_status task_id t poll submit).pollCalls = 0 ∧
    (get_task_status task_id t poll submit).submitCalls = 0 := by
  rcases t with ⟨uid, du, cu, ru, st, se, mo, fu, ps, sti, kti, iu, rus⟩
  cases mo
  · simp at hm
  · simp only [get_task_status, stageOf] at *
    repeat' split <;> simp_all

/-- One TWO_STEP status request keeps the stage inside the ordered set. -/
lemma step_orderedStage (task_id : String) (t : TaskRecord)
    (poll : FreepikStatusResult) (submit : FreepikCreateResult)
    (hm : t.model = .seedream_kling) (hs : OrderedStage (stageOf t)) :
    OrderedStage (stageOf (get_task_status task_id t poll submit).task) := by
  rcases step_stage_cases task_id t poll submit hm with h | h | ⟨_, h⟩ | ⟨_, h⟩ <;>
    rw [h] <;> simp_all [OrderedStage]

/-- One TWO_STEP status request never moves the stage backwards: it either
jumps to `FAILED` or keeps at least its rank. -/
lemma step_stage_monotone (task_id : String) (t : TaskRecord)
    (poll : FreepikStatusResult) (submit : FreepikCreateResult)
    (hm : t.model = .seedream_kling) :
    stageOf (get_task_status task_id t poll submit).task = .FAILED ∨
      stageRank (stageOf t) ≤
        stageRank (stageOf (get_task_status task_id t poll submit).task) := by
  rcases step_stage_cases task_id t poll submit hm with h | h | ⟨h', h⟩ | ⟨h', h⟩
  · right; rw [h]
  · left; exact h
  · right; rcases h' with h' | h' <;> rw [h, h'] <;> simp [stageRank]
  · right; rw [h, h']; simp [stageRank]

/-- A record at stage `FAILED` is frozen by any single status request. -/
lemma step_failed_frozen (task_id : String) (t : TaskRecord)
    (poll : FreepikStatusResult) (submit : FreepikCreateResult)
    (hm : t.model = .seedream_kling) (hf : stageOf t = .FAILED) :
    (get_task_status task_id t poll submit).task = t :=
  (step_fallback task_id t poll submit hm (by simp [hf]) (by simp [hf])
    (by simp [hf])).1

/-- `runStatusRequests` never changes the stored model. -/
lemma run_model_eq (task_id : String) (t : TaskRecord)
    (oracles : List (FreepikStatusResult × FreepikCreateResult)) :
    (runStatusRequests task_id t oracles).model = t.model := by
  induction oracles generalizing t with
  | nil => rfl
  | cons o l ih =>
      simpa [runStatusRequests, List.foldl_cons] using
        (ih ((get_task_status task_id t o.1 o.2).task)).trans
          (step_model_eq task_id t o.1 o.2)

/-- `runStatusRequests` keeps a TWO_STEP stage inside the ordered set. -/
lemma run_orderedStage (task_id : String) (t : TaskRecord)
    (oracles : List (FreepikStatusResult × FreepikCreateResult))
    (hm : t.model = .seedream_kling) (hs : OrderedStage (stageOf t)) :
    OrderedStage (stageOf (runStatusRequests task_id t oracles)) := by
  induction oracles generalizing t with
  | nil => exact hs
  | cons o l ih =>
      exact ih ((get_task_status task_id t o.1 o.2).task)
        ((step_model_eq task_id t o.1 o.2).trans hm)
        (step_orderedStage task_id t o.1 o.2 hm hs)

/-- A record at stage `FAILED` is frozen by any sequence of status
requests. -/
lemma run_failed_frozen (task_id : String) (t : TaskRecord)
    (oracles : List (FreepikStatusResult × FreepikCreateResult))
    (hm : t.model = .seedream_kling) (hf : stageOf t = .FAILED) :
    runStatusRequests task_id t oracles = t := by
  induction oracles generalizing t with
  | nil => rfl
  | cons o l ih =>
      have hstep := step_failed_frozen task_id t o.1 o.2 hm hf
      calc runStatusRequests task_id t (o :: l)
          = runStatusRequests task_id ((get_task_status task_id t o.1 o.2).task) l
            := rfl
        _ = runStatusRequests task_id t l := by rw [hstep]
        _ = t := ih t hm hf

/-- Across any sequence of status requests, a TWO_STEP stage either ends
at `FAILED` or keeps at least the rank it started with. -/
lemma run_stage_monotone (task_id : String) (t : TaskRecord)
    (oracles : List (FreepikStatusResult × FreepikCreateResult))
    (hm : t.model = .seedream_kling) (hs : OrderedStage (stageOf t)) :
    stageOf (runStatusRequests task_id t oracles) = .FAILED ∨
      stageRank (stageOf t) ≤ stageRank (stageOf (runStatusRequests task_id t oracles)) := by
  induction oracles generalizing t with
  | nil => right; rfl
  | cons o l ih =>
      have hm' : ((get_task_status task_id t o.1 o.2).task).model = .seedream_kling :=
        (step_model_eq task_id t o.1 o.2).trans hm
      have hs' := step_orderedStage task_id t o.1 o.2 hm hs
      have hrest := ih ((get_task_status task_id t o.1 o.2).task) hm' hs'
      have hone := step_stage_monotone task_id t o.1 o.2 hm
      have hcons : runStatusRequests task_id t (o :: l)
          = runStatusRequests task_id ((get_task_status task_id t o.1 o.2).task) l := rfl
      rw [hcons]
      rcases hone with hone | hone
      · left
        have := run_failed_frozen task_id ((get_task_status task_id t o.1 o.2).task) l hm' hone
        rw [this]; exact hone
      · rcases hrest with hrest | hrest
        · left; exact hrest
        · right; exact hone.trans hrest

/-- Splitting a sequence of status requests. -/
lemma run_append (task_id : String) (t : TaskRecord)
    (pre post : List (FreepikStatusResult × FreepikCreateResult)) :
    runStatusRequests task_id t (pre ++ post)
      = runStatusRequests task_id (runStatusRequests task_id t pre) post := by
  simp [runStatusRequests, List.foldl_append]

/-! ## Claims -/

/-- C1: for every TWO_STEP task whose stage lies in the defined order, a
status request either leaves the stage's rank intact or increases it,
except for jumps to `FAILED`; the same holds across any sequence of
status requests; `FAILED` is absorbing across any sequence; and at the
terminal stages `PIPELINE_COMPLETED` and `FAILED` a status request makes
no provider call and leaves the task record unchanged. -/
theorem C1_stage_monotone_terminal_idempotent
    (task_id : String) (t : TaskRecord)
    (poll : FreepikStatusResult) (submit : FreepikCreateResult)
    (pre post : List (FreepikStatusResult × FreepikCreateResult))
    (hm : t.model = .seedream_kling) (hs : OrderedStage (stageOf t)) :
    (stageOf (get_task_status task_id t poll submit).task = .FAILED ∨
      stageRank (stageOf t) ≤
        stageRank (stageOf (get_task_status task_id t poll submit).task)) ∧
    (stageOf (runStatusRequests task_id t (pre ++ post)) = .FAILED ∨
      stageRank (stageOf (runStatusRequests task_id t pre)) ≤
        stageRank (stageOf (runStatusRequests task_id t (pre ++ post)))) ∧
    (stageOf t = .FAILED → runStatusRequests task_id t post = t) ∧
    (stageOf t = .PIPELINE_COMPLETED ∨ stageOf t = .FAILED →
      (get_task_status task_id t poll submit).task = t ∧
      (get_task_status task_id t poll submit).pollCalls = 0 ∧
      (get_task_status task_id t poll submit).submitCalls = 0) := by
  refine ⟨step_stage_monotone task_id t poll submit hm, ?_, ?_, ?_⟩
  · rw [run_append]
    exact run_stage_monotone task_id (runStatusRequests task_id t pre) post
      ((run_model_eq task_id t pre).trans hm)
      (run_orderedStage task_id t pre hm hs)
  · intro hf
    exact run_failed_frozen task_id t post hm hf
  · intro ht
    refine step_fallback task_id t poll submit hm ?_ ?_ ?_ <;>
      rcases ht with ht | ht <;> rw [ht] <;> simp

/-- Witness for C1 at a concrete TWO_STEP task and concrete request
sequences. -/
theorem C1_stage_monotone_terminal_idempotent_witness :
    sampleTwoStepTask.model = .seedream_kling ∧
    OrderedStage (stageOf sampleTwoStepTask) ∧
    ((stageOf (get_task_status "sd-1" sampleTwoStepTask pollInProgress submitOK).task = .FAILED ∨
      stageRank (stageOf sampleTwoStepTask) ≤
        stageRank (stageOf (get_task_status "sd-1" sampleTwoStepTask pollInProgress submitOK).task)) ∧
    (stageOf (runStatusRequests "sd-1" sampleTwoStepTask
        ([(pollInProgress, submitOK)] ++ [(pollCompleted, submitOK)])) = .FAILED ∨
      stageRank (stageOf (runStatusRequests "sd-1" sampleTwoStepTask
        [(pollInProgress, submitOK)])) ≤
        stageRank (stageOf (runStatusRequests "sd-1" sampleTwoStepTask
          ([(pollInProgress, submitOK)] ++ [(pollCompleted, submitOK)])))) ∧
    (stageOf sampleTwoStepTask = .FAILED →
      runStatusRequests "sd-1" sampleTwoStepTask [(pollCompleted, submitOK)] = sampleTwoStepTask) ∧
    (stageOf sampleTwoStepTask = .PIPELINE_COMPLETED ∨ stageOf sampleTwoStepTask = .FAILED →
      (get_task_status "sd-1" sampleTwoStepTask pollInProgress submitOK).task = sampleTwoStepTask ∧
      (get_task_status "sd-1" sampleTwoStepTask pollInProgress submitOK).pollCalls = 0 ∧
      (get_task_status "sd-1" sampleTwoStepTask pollInProgress submitOK).submitCalls = 0)) :=
  ⟨rfl, by decide,
    C1_stage_monotone_terminal_idempotent "sd-1" sampleTwoStepTask
      pollInProgress submitOK [(pollInProgress, submitOK)]
      [(pollCompleted, submitOK)] rfl (by decide)⟩

/-- C2 counterexample: at stage `IMAGE_EDIT_STARTED` with a completed
image-edit poll and a successful video submission whose initial provider
status token is `"queued"`, all stored effects occur but the request does
not return an empty `result_urls` list — `TaskStatus("queued")` raises and
the caller gets a 500 error, so the claim as stated is false. -/
theorem C2_counterexample :
    (get_task_status "sd-1" sampleTwoStepTask pollCompleted submitOKUnknownStatus).response
        = .httpError 500 "'queued' is not a valid TaskStatus" ∧
    (get_task_status "sd-1" sampleTwoStepTask pollCompleted submitOKUnknownStatus).task.pipeline_stage
        = some .VIDEO_STARTED ∧
    (get_task_status "sd-1" sampleTwoStepTask pollCompleted submitOKUnknownStatus).task.status
        = "queued" := by
  decide

/-- C2 (amended): at stage `IMAGE_EDIT_STARTED`, a completed image-edit
poll with a non-empty result list stores its first URL as
`intermediate_url`, submits the video sub-task with that URL as input,
records the second provider task id, sets the stage to `VIDEO_STARTED` and
stores the submission's initial status; and, provided that initial status
is one of the enumerated `TaskStatus` tokens, the response carries it with
an empty `result_urls` list. -/
theorem C2_image_edit_completed_launches_video
    (task_id u : String) (rest : List String) (t : TaskRecord)
    (poll : FreepikStatusResult) (submit : FreepikCreateResult)
    (hm : t.model = .seedream_kling)
    (hs : t.pipeline_stage = some .IMAGE_EDIT_STARTED)
    (hp : poll.success = true) (hps : poll.status = "COMPLETED")
    (hru : poll.result_urls = u :: rest)
    (hsub : submit.success = true) :
    (get_task_status task_id t poll submit).task.intermediate_url = some u ∧
    (get_task_status task_id t poll submit).submitCalls = 1 ∧
    (get_task_status task_id t poll submit).submitInput = some u ∧
    (get_task_status task_id t poll submit).task.kling_task_id = some submit.task_id ∧
    (get_task_status task_id t poll submit).task.pipeline_stage = some .VIDEO_STARTED ∧
    (get_task_status task_id t poll submit).task.status = submit.status ∧
    (∀ st : TaskStatus, TaskStatus.ofString? submit.status = some st →
      (get_task_status task_id t poll submit).response = .ok
        { task_id := task_id
          status := st
          progress_stage := some "VIDEO_STARTED"
          pipeline_stage := some .VIDEO_STARTED
          frame_url := t.frame_url
          intermediate_url := some u
          result_urls := []
          model_used := some .seedream_kling }) := by
  rcases t with ⟨uid, du, cu, ru, st0, se, mo, fu, ps, sti, kti, iu, rus⟩
  cases mo
  · simp at hm
  · simp only at hs
    subst hs
    simp only [get_task_status, stageOf, mkStatusResponse]
    simp only [hp, hps, hru, hsub]
    simp only [Option.getD_some]
    norm_num
    intro st hst
    simp [hst]

/-- Witness for C2 at a concrete TWO_STEP task, with the video submission
returning initial status `CREATED`. -/
theorem C2_image_edit_completed_launches_video_witness :
    sampleTwoStepTask.model = .seedream_kling ∧
    sampleTwoStepTask.pipeline_stage = some .IMAGE_EDIT_STARTED ∧
    pollCompleted.success = true ∧ pollCompleted.status = "COMPLETED" ∧
    pollCompleted.result_urls = "https://cdn/x.png" :: [] ∧
    submitOK.success = true ∧
    ((get_task_status "sd-1" sampleTwoStepTask pollCompleted submitOK).task.intermediate_url
        = some "https://cdn/x.png" ∧
    (get_task_status "sd-1" sampleTwoStepTask pollCompleted submitOK).submitCalls = 1 ∧
    (get_task_status "sd-1" sampleTwoStepTask pollCompleted submitOK).submitInput
        = some "https://cdn/x.png" ∧
    (get_task_status "sd-1" sampleTwoStepTask pollCompleted submitOK).task.kling_task_id
        = some submitOK.task_id ∧
    (get_task_status "sd-1" sampleTwoStepTask pollCompleted submitOK).task.pipeline_stage
        = some .VIDEO_STARTED ∧
    (get_task_status "sd-1" sampleTwoStepTask pollCompleted submitOK).task.status
        = submitOK.status ∧
    (∀ st : TaskStatus, TaskStatus.ofString? submitOK.status = some st →
      (get_task_status "sd-1" sampleTwoStepTask pollCompleted submitOK).response = .ok
        { task_id := "sd-1"
          status := st
          progress_stage := some "VIDEO_STARTED"
          pipeline_stage := some .VIDEO_STARTED
          frame_url := sampleTwoStepTask.frame_url
          intermediate_url := some "https://cdn/x.png"
          result_urls := []
          model_used := some .seedream_kling })) :=
  ⟨rfl, rfl, rfl, rfl, rfl, rfl,
    C2_image_edit_completed_launches_video "sd-1" "https://cdn/x.png" []
      sampleTwoStepTask pollCompleted submitOK rfl rfl rfl rfl rfl rfl⟩

/-- C3 counterexample: a task whose stored status is the (reachable)
unrecognized token `"queued"` receives a transient poll failure; the claim
says no caller-visible error is raised and the stored status is returned,
but `TaskStatus("queued")` raises inside the transient branch and the
caller gets a 500 error. -/
theorem C3_counterexample :
    taskUnknownStoredStatus.status = "queued" ∧
    pollTransientFail.success = false ∧
    pollTransientFail.transient = some true ∧
    (get_task_status "rw-1" taskUnknownStoredStatus pollTransientFail submitOK).response
        = .httpError 500 "'queued' is not a valid TaskStatus" ∧
    (get_task_status "rw-1" taskUnknownStoredStatus pollTransientFail submitOK).task
        = taskUnknownStoredStatus ∧
    (get_task_status "rw-1" taskUnknownStoredStatus pollTransientFail submitOK).submitCalls
        = 0 := by
  decide

/-- C3 (amended): whenever a provider poll is made (either variant, any
non-terminal stage) and fails with `transient=True`, the stored record is
left entirely unchanged, no chained submission is issued, and repeating
the request is idempotent — all regardless of the stored status token;
provided the stored status is one of the enumerated `TaskStatus` tokens,
the caller additionally gets a success response mirroring the stored
status and stage, while with an unrecognized stored status the transient
branch itself fails with a 500 error (the record still unchanged by the
first conjunct). -/
theorem C3_transient_poll_preserves_state
    (task_id : String) (t : TaskRecord)
    (poll : FreepikStatusResult) (submit : FreepikCreateResult)
    (hbr : t.model = .runway_act_two ∨
      (t.model = .seedream_kling ∧
        (stageOf t = .IMAGE_EDIT_STARTED ∨ stageOf t = .FRAME_UPLOADED ∨
          stageOf t = .VIDEO_STARTED)))
    (hfail : poll.success = false) (htr : poll.transient = some true) :
    (get_task_status task_id t poll submit).task = t ∧
    (get_task_status task_id t poll submit).submitCalls = 0 ∧
    (get_task_status task_id t poll submit).pollCalls = 1 ∧
    get_task_status task_id
        ((get_task_status task_id t poll submit).task) poll submit
      = get_task_status task_id t poll submit ∧
    (∀ st : TaskStatus, TaskStatus.ofString? t.status = some st →
      ∃ resp : StatusResponse,
        (get_task_status task_id t poll submit).response = .ok resp ∧
        resp.status = st ∧
        resp.result_urls = t.result_urls ∧
        (t.model = .seedream_kling → resp.pipeline_stage = some (stageOf t)) ∧
        (t.model = .runway_act_two → resp.pipeline_stage = none)) ∧
    (TaskStatus.ofString? t.status = none →
      (get_task_status task_id t poll submit).response
        = .httpError 500 ("'" ++ t.status ++ "' is not a valid TaskStatus")) := by
  have hmain :
      (get_task_status task_id t poll submit).task = t ∧
      (get_task_status task_id t poll submit).submitCalls = 0 ∧
      (get_task_status task_id t poll submit).pollCalls = 1 ∧
      (∀ st : TaskStatus, TaskStatus.ofString? t.status = some st →
        ∃ resp : StatusResponse,
          (get_task_status task_id t poll submit).response = .ok resp ∧
          resp.status = st ∧
          resp.result_urls = t.result_urls ∧
          (t.model = .seedream_kling → resp.pipeline_stage = some (stageOf t)) ∧
          (t.model = .runway_act_two → resp.pipeline_stage = none)) ∧
      (TaskStatus.ofString? t.status = none →
        (get_task_status task_id t poll submit).response
          = .httpError 500 ("'" ++ t.status ++ "' is not a valid TaskStatus")) := by
    rcases t with ⟨uid, du, cu, ru, st0, se, mo, fu, ps, sti, kti, iu, rus⟩
    cases mo
    · simp only [get_task_status, transientTruthy, mkStatusResponse]
      simp only [hfail, htr]
      simp only [stageOf] at *
      refine ⟨by simp, by simp, by simp, ?_, ?_⟩
      · intro st hst
        simp [hst]
      · intro hnone
        simp [hnone]
    · rcases hbr with hbr | ⟨_, hbr⟩
      · simp at hbr
      · simp only [get_task_status, transientTruthy, mkStatusResponse, stageOf] at *
        rcases hbr with hbr | hbr | hbr <;> rw [hbr] <;>
          refine ⟨by simp [hfail, htr], by simp [hfail, htr], by simp [hfail, htr],
            ?_, ?_⟩ <;>
          first
            | (intro st hst; simp [hfail, htr, hst, hbr])
            | (intro hnone; simp [hfail, htr, hnone])
  refine ⟨hmain.1, hmain.2.1, hmain.2.2.1, ?_, hmain.2.2.2.1, hmain.2.2.2.2⟩
  rw [hmain.1]

/-- Witness for C3: a concrete TWO_STEP task with an enumerated stored
status and a concrete SINGLE_STEP task with an unrecognized stored status,
both under a transient (502) poll failure. -/
theorem C3_transient_poll_preserves_state_witness :
    ((get_task_status "sd-1" sampleTwoStepTask pollTransientFail submitOK).task
        = sampleTwoStepTask ∧
    (get_task_status "sd-1" sampleTwoStepTask pollTransientFail submitOK).submitCalls = 0 ∧
    (get_task_status "sd-1" sampleTwoStepTask pollTransientFail submitOK).pollCalls = 1 ∧
    get_task_status "sd-1"
        ((get_task_status "sd-1" sampleTwoStepTask pollTransientFail submitOK).task)
        pollTransientFail submitOK
      = get_task_status "sd-1" sampleTwoStepTask pollTransientFail submitOK ∧
    (∃ resp : StatusResponse,
      (get_task_status "sd-1" sampleTwoStepTask pollTransientFail submitOK).response
          = .ok resp ∧
      resp.status = .CREATED ∧
      resp.result_urls = sampleTwoStepTask.result_urls ∧
      (sampleTwoStepTask.model = .seedream_kling →
        resp.pipeline_stage = some (stageOf sampleTwoStepTask)) ∧
      (sampleTwoStepTask.model = .runway_act_two → resp.pipeline_stage = none))) ∧
    ((get_task_status "rw-1" taskUnknownStoredStatus pollTransientFail submitOK).task
        = taskUnknownStoredStatus ∧
    (get_task_status "rw-1" taskUnknownStoredStatus pollTransientFail submitOK).response
        = .httpError 500 ("'" ++ taskUnknownStoredStatus.status
            ++ "' is not a valid TaskStatus")) := by
  have h := C3_transient_poll_preserves_state "sd-1" sampleTwoStepTask
    pollTransientFail submitOK (by decide) rfl rfl
  have h' := C3_transient_poll_preserves_state "rw-1" taskUnknownStoredStatus
    pollTransientFail submitOK (by decide) rfl rfl
  exact ⟨⟨h.1, h.2.1, h.2.2.1, h.2.2.2.1, h.2.2.2.2.1 .CREATED (by decide)⟩,
    ⟨h'.1, h'.2.2.2.2.2 (by decide)⟩⟩

/-- C4: at stage `IMAGE_EDIT_STARTED`, when the image-edit poll comes back
`COMPLETED` but the chained video-stage submission fails for any reason,
the stage is forced to `FAILED` (with the intermediate URL already
recorded) and the caller receives an explicit HTTP 500 error whose detail
is exactly the submission failure's error message; composed with the
gateway, a provider 4xx/5xx rejection of the submission yields the detail
`"HTTP error: <code>"` built from the provider's response. -/
theorem C4_chained_submit_failure_forces_FAILED
    (task_id u : String) (rest : List String) (t : TaskRecord)
    (poll : FreepikStatusResult) (submit : FreepikCreateResult)
    (code : Nat) (text : String)
    (hm : t.model = .seedream_kling)
    (hs : t.pipeline_stage = some .IMAGE_EDIT_STARTED)
    (hp : poll.success = true) (hps : poll.status = "COMPLETED")
    (hru : poll.result_urls = u :: rest)
    (hsub : submit.success = false) :
    (get_task_status task_id t poll submit).task.pipeline_stage = some .FAILED ∧
    (get_task_status task_id t poll submit).task.intermediate_url = some u ∧
    (get_task_status task_id t poll submit).submitCalls = 1 ∧
    (get_task_status task_id t poll submit).response = .httpError 500 submit.error ∧
    (get_task_status task_id t poll
          (FreepikClient.create_kling_task true (.statusError code text))).response
      = .httpError 500 ("HTTP error: " ++ toString code) := by
  rcases t with ⟨uid, du, cu, ru, st0, se, mo, fu, ps, sti, kti, iu, rus⟩
  cases mo
  · simp at hm
  · simp only at hs
    subst hs
    simp only [get_task_status, stageOf, FreepikClient.create_kling_task]
    simp only [hp, hps, hru, hsub]
    simp [Option.getD_some]

/-- Witness for C4 at a concrete TWO_STEP task with the video submission
rejected by the provider (HTTP 400). -/
theorem C4_chained_submit_failure_forces_FAILED_witness :
    sampleTwoStepTask.model = .seedream_kling ∧
    sampleTwoStepTask.pipeline_stage = some .IMAGE_EDIT_STARTED ∧
    pollCompleted.success = true ∧ pollCompleted.status = "COMPLETED" ∧
    pollCompleted.result_urls = "https://cdn/x.png" :: [] ∧
    submitFail.success = false ∧
    ((get_task_status "sd-1" sampleTwoStepTask pollCompleted submitFail).task.pipeline_stage
        = some .FAILED ∧
    (get_task_status "sd-1" sampleTwoStepTask pollCompleted submitFail).task.intermediate_url
        = some "https://cdn/x.png" ∧
    (get_task_status "sd-1" sampleTwoStepTask pollCompleted submitFail).submitCalls = 1 ∧
    (get_task_status "sd-1" sampleTwoStepTask pollCompleted submitFail).response
        = .httpError 500 submitFail.error ∧
    (get_task_status "sd-1" sampleTwoStepTask pollCompleted
          (FreepikClient.create_kling_task true (.statusError 400 "bad request"))).response
        = .httpError 500 ("HTTP error: " ++ toString 400)) :=
  ⟨rfl, rfl, rfl, rfl, rfl, rfl,
    C4_chained_submit_failure_forces_FAILED "sd-1" "https://cdn/x.png" []
      sampleTwoStepTask pollCompleted submitFail 400 "bad request"
      rfl rfl rfl rfl rfl rfl⟩

/-- C5 counterexample: a status request that receives the unrecognized
provider token `"QUEUED"` does not succeed — `TaskStatus("QUEUED")` raises
and the caller gets a 500 error, so the token is not passed through in the
response and the claim as stated is false. -/
theorem C5_counterexample :
    pollUnknownStatus.success = true ∧
    pollUnknownStatus.status = "QUEUED" ∧
    (get_task_status "rw-1" sampleSingleStepTask pollUnknownStatus submitOK).response
        = .httpError 500 "'QUEUED' is not a valid TaskStatus" := by
  decide

/-- C5 (amended): the progress-label map is a total function — each
enumerated provider token maps to its label, with `COMPLETED` aliased to
the same terminal label as `READY`, and any unrecognized token maps to
itself — and a status request whose poll returns an enumerated token
succeeds with that label; but a status request that receives an
unrecognized token fails with a 500 error, because the response's
`status` field accepts only the enumerated tokens. -/
theorem C5_status_normalization
    (s : String) (task_id : String) (t : TaskRecord) (st : TaskStatus)
    (poll : FreepikStatusResult) (submit : FreepikCreateResult) :
    (progress_stage_map "CREATED" = "Uploaded" ∧
     progress_stage_map "IN_PROGRESS" = "In Progress" ∧
     progress_stage_map "PROCESSING" = "Processing" ∧
     progress_stage_map "FINALIZING" = "Finalizing" ∧
     progress_stage_map "READY" = "Ready" ∧
     progress_stage_map "COMPLETED" = "Ready" ∧
     progress_stage_map "FAILED" = "Failed") ∧
    (TaskStatus.ofString? s = none → progress_stage_map s = s) ∧
    (t.model = .runway_act_two → poll.success = true →
      TaskStatus.ofString? poll.status = some st →
      (get_task_status task_id t poll submit).response = .ok
        { task_id := task_id
          status := st
          result_urls := poll.result_urls
          progress_stage := some (progress_stage_map poll.status)
          model_used := some .runway_act_two }) ∧
    (t.model = .runway_act_two → poll.success = true →
      TaskStatus.ofString? poll.status = none →
      (get_task_status task_id t poll submit).response
        = .httpError 500 ("'" ++ poll.status ++ "' is not a valid TaskStatus")) := by
  refine ⟨by decide, ?_, ?_, ?_⟩
  · intro h
    simp only [TaskStatus.ofString?] at h
    split_ifs at h with h1 h2 h3 h4 h5 h6 h7
    simp_all [progress_stage_map]
  · intro hm hp hst
    rcases t with ⟨uid, du, cu, ru, st0, se, mo, fu, ps, sti, kti, iu, rus⟩
    cases mo
    · simp only [get_task_status, mkStatusResponse]
      simp [hp, hst]
    · simp at hm
  · intro hm hp hst
    rcases t with ⟨uid, du, cu, ru, st0, se, mo, fu, ps, sti, kti, iu, rus⟩
    cases mo
    · simp only [get_task_status, mkStatusResponse]
      simp [hp, hst]
    · simp at hm

/-- Witness for C5: the pass-through on `"QUEUED"`, a successful request
at the enumerated token `IN_PROGRESS`, and the failing request at the
unrecognized token `"QUEUED"`. -/
theorem C5_status_normalization_witness :
    progress_stage_map "QUEUED" = "QUEUED" ∧
    (get_task_status "rw-1" sampleSingleStepTask pollInProgress submitOK).response = .ok
      { task_id := "rw-1"
        status := .IN_PROGRESS
        result_urls := pollInProgress.result_urls
        progress_stage := some (progress_stage_map pollInProgress.status)
        model_used := some .runway_act_two } ∧
    (get_task_status "rw-1" sampleSingleStepTask pollUnknownStatus submitOK).response
        = .httpError 500 ("'" ++ pollUnknownStatus.status ++ "' is not a valid TaskStatus") :=
  ⟨(C5_status_normalization "QUEUED" "rw-1" sampleSingleStepTask .IN_PROGRESS
      pollInProgress submitOK).2.1 (by decide),
   (C5_status_normalization "QUEUED" "rw-1" sampleSingleStepTask .IN_PROGRESS
      pollInProgress submitOK).2.2.1 rfl rfl (by decide),
   (C5_status_normalization "QUEUED" "rw-1" sampleSingleStepTask .IN_PROGRESS
      pollUnknownStatus submitOK).2.2.2 rfl rfl (by decide)⟩

/-- C6 counterexample: a poll that breaches the 30-second deadline raises
`httpx.TimeoutException`, which is not an `HTTPStatusError`, so the
failure dict is built by the generic `except Exception` clause and carries
no `transient` key at all — the failure is not reported with
`transient=true` as the claim states. -/
theorem C6_counterexample :
    (FreepikClient.get_task_status (some "https://api/{task_id}") "t-1"
        (.timeout "Request timed out")).success = false ∧
    (FreepikClient.get_task_status (some "https://api/{task_id}") "t-1"
        (.timeout "Request timed out")).transient = none ∧
    (FreepikClient.get_task_status (some "https://api/{task_id}") "t-1"
        (.timeout "Request timed out")).transient ≠ some true := by
  decide

/-- C6 (amended): on `create_task` and on polls, a provider HTTP rejection
is reported with `transient = (500 ≤ code < 600)` — so 4xx rejections are
non-transient and 5xx responses transient; a missing endpoint
configuration is reported as a failure without a `transient` marker; but a
deadline breach (timeout) falls into the generic exception handler and is
likewise reported without a `transient` marker, i.e. it is not marked
transient; the seedream and kling submit calls never set a `transient`
marker on any failure. -/
theorem C6_transient_classification
    (code : Nat) (text msg tpl task_id : String) :
    ((FreepikClient.create_task (.statusError code text)).transient
        = some (decide (500 ≤ code ∧ code < 600)) ∧
     (FreepikClient.get_task_status (some tpl) task_id (.statusError code text)).transient
        = some (decide (500 ≤ code ∧ code < 600))) ∧
    (400 ≤ code → code < 500 →
      (FreepikClient.create_task (.statusError code text)).transient = some false ∧
      (FreepikClient.get_task_status (some tpl) task_id (.statusError code text)).transient
        = some false) ∧
    ((FreepikClient.get_task_status none task_id (.statusError code text)).success = false ∧
     (FreepikClient.get_task_status none task_id (.statusError code text)).transient = none) ∧
    ((FreepikClient.create_task (.timeout msg)).transient = none ∧
     (FreepikClient.get_task_status (some tpl) task_id (.timeout msg)).transient = none) ∧
    ((FreepikClient.create_seedream_edit_task true (.statusError code text)).transient = none ∧
     (FreepikClient.create_kling_task true (.statusError code text)).transient = none ∧
     (FreepikClient.create_seedream_edit_task false (.statusError code text)).transient = none ∧
     (FreepikClient.create_kling_task false (.statusError code text)).transient = none) := by
  refine ⟨⟨rfl, rfl⟩, ?_, ⟨rfl, rfl⟩, ⟨rfl, rfl⟩, rfl, rfl, rfl, rfl⟩
  intro h4 h5
  constructor <;>
    simp [FreepikClient.create_task, FreepikClient.get_task_status] <;>
    omega

/-- Witness for C6 at a concrete 404 rejection. -/
theorem C6_transient_classification_witness :
    ((FreepikClient.create_task (.statusError 404 "not found")).transient
        = some (decide (500 ≤ 404 ∧ 404 < 600)) ∧
     (FreepikClient.get_task_status (some "https://api/{task_id}") "t-1"
        (.statusError 404 "not found")).transient
        = some (decide (500 ≤ 404 ∧ 404 < 600))) ∧
    ((FreepikClient.create_task (.statusError 404 "not found")).transient = some false ∧
      (FreepikClient.get_task_status (some "https://api/{task_id}") "t-1"
        (.statusError 404 "not found")).transient = some false) ∧
    ((FreepikClient.get_task_status none "t-1" (.statusError 404 "not found")).success
        = false ∧
     (FreepikClient.get_task_status none "t-1" (.statusError 404 "not found")).transient
        = none) ∧
    ((FreepikClient.create_task (.timeout "Request timed out")).transient = none ∧
     (FreepikClient.get_task_status (some "https://api/{task_id}") "t-1"
        (.timeout "Request timed out")).transient = none) ∧
    ((FreepikClient.create_seedream_edit_task true (.statusError 404 "not found")).transient
        = none ∧
     (FreepikClient.create_kling_task true (.statusError 404 "not found")).transient = none ∧
     (FreepikClient.create_seedream_edit_task false (.statusError 404 "not found")).transient
        = none ∧
     (FreepikClient.create_kling_task false (.statusError 404 "not found")).transient
        = none) := by
  have h := C6_transient_classification 404 "not found" "Request timed out"
    "https://api/{task_id}" "t-1"
  exact ⟨h.1, h.2.1 (by decide) (by decide), h.2.2.1, h.2.2.2.1, h.2.2.2.2⟩

/-- C7: whenever the first provider call of a step — a poll, not the
chained submission — fails non-transiently (Python: `result.get("transient")`
falsy, i.e. the key absent or `False`), the request raises an HTTP 500
carrying the failure's error message, issues no chained submission, and
leaves the stored task record entirely unchanged — in particular the
stage keeps its current value and is not forced to `FAILED`. -/
theorem C7_fatal_poll_surfaces_without_mutation
    (task_id : String) (t : TaskRecord)
    (poll : FreepikStatusResult) (submit : FreepikCreateResult)
    (hbr : t.model = .runway_act_two ∨
      (t.model = .seedream_kling ∧
        (stageOf t = .IMAGE_EDIT_STARTED ∨ stageOf t = .FRAME_UPLOADED ∨
          stageOf t = .VIDEO_STARTED)))
    (hfail : poll.success = false)
    (hnt : transientTruthy poll.transient = false) :
    (get_task_status task_id t poll submit).response = .httpError 500 poll.error ∧
    (get_task_status task_id t poll submit).task = t ∧
    (get_task_status task_id t poll submit).submitCalls = 0 ∧
    (get_task_status task_id t poll submit).pollCalls = 1 := by
  rcases t with ⟨uid, du, cu, ru, st0, se, mo, fu, ps, sti, kti, iu, rus⟩
  cases mo
  · simp only [get_task_status]
    simp [hfail, hnt]
  · rcases hbr with hbr | ⟨_, hbr⟩
    · simp at hbr
    · simp only [get_task_status, stageOf] at *
      rcases hbr with hbr | hbr | hbr <;> rw [hbr] <;> simp [hfail, hnt]

/-- Witness for C7 at a concrete TWO_STEP task with a fatal (404) poll
failure. -/
theorem C7_fatal_poll_surfaces_without_mutation_witness :
    (sampleTwoStepTask.model = .runway_act_two ∨
      (sampleTwoStepTask.model = .seedream_kling ∧
        (stageOf sampleTwoStepTask = .IMAGE_EDIT_STARTED ∨
          stageOf sampleTwoStepTask = .FRAME_UPLOADED ∨
          stageOf sampleTwoStepTask = .VIDEO_STARTED))) ∧
    pollFatalFail.success = false ∧
    transientTruthy pollFatalFail.transient = false ∧
    ((get_task_status "sd-1" sampleTwoStepTask pollFatalFail submitOK).response
        = .httpError 500 pollFatalFail.error ∧
    (get_task_status "sd-1" sampleTwoStepTask pollFatalFail submitOK).task
        = sampleTwoStepTask ∧
    (get_task_status "sd-1" sampleTwoStepTask pollFatalFail submitOK).submitCalls = 0 ∧
    (get_task_status "sd-1" sampleTwoStepTask pollFatalFail submitOK).pollCalls = 1) :=
  ⟨by decide, rfl, rfl,
    C7_fatal_poll_surfaces_without_mutation "sd-1" sampleTwoStepTask
      pollFatalFail submitOK (by decide) rfl rfl⟩

/-- C8 counterexample: a TWO_STEP generate request without a frame URL
whose `upload_id` is unknown is rejected by the upload lookup as
NotFound (HTTP 404), not as a validation error (400/422), so the claim's
"rejected as a validation error" is false for this input (no provider
call and no Task Store mutation still hold). -/
theorem C8_counterexample :
    reqTwoStepNoFrameUnknownUpload.settings.model = .seedream_kling ∧
    reqTwoStepNoFrameUnknownUpload.frame_url = none ∧
    (api_generate [] [] reqTwoStepNoFrameUnknownUpload submitOK submitOK).response
        = .httpError 404 "Upload not found: u0" ∧
    (api_generate [] [] reqTwoStepNoFrameUnknownUpload submitOK submitOK).response
        ≠ .httpError 400 "frame_url is required for pipeline model" ∧
    (api_generate [] [] reqTwoStepNoFrameUnknownUpload submitOK submitOK).response
        ≠ .httpError 422 "Either upload_id or direct_urls must be provided" ∧
    (api_generate [] [] reqTwoStepNoFrameUnknownUpload submitOK submitOK).tasks = [] ∧
    (api_generate [] [] reqTwoStepNoFrameUnknownUpload submitOK submitOK).submitCalls = 0 := by
  decide

/-- C8 (amended): a generate request that supplies both or neither of
`upload_id` and `direct_urls` is rejected at request validation (HTTP 422);
a TWO_STEP request without a frame URL whose input source resolves (direct
URLs, or a known upload) is rejected as a validation error (HTTP 400);
but a TWO_STEP request without a frame URL whose upload reference is
unknown is rejected as NotFound (HTTP 404) instead.  In every case the
rejection happens before any provider call and without any Task Store
mutation. -/
theorem C8_invalid_generate_rejected_before_submit
    (up : List (String × UploadRecord)) (tk : List (String × TaskRecord))
    (req : GenerateRequest) (rs es : FreepikCreateResult)
    (uid : String) (d : DirectUrls) (u : UploadRecord) :
    (req.upload_id = none → req.direct_urls = none →
      api_generate up tk req rs es =
        { tasks := tk
          response := .httpError 422 "Either upload_id or direct_urls must be provided"
          submitCalls := 0 }) ∧
    (req.upload_id = some uid → req.direct_urls = some d →
      api_generate up tk req rs es =
        { tasks := tk
          response := .httpError 422 "Cannot provide both upload_id and direct_urls"
          submitCalls := 0 }) ∧
    (req.upload_id = none → req.direct_urls = some d →
      req.settings.model = .seedream_kling → req.frame_url = none →
      api_generate up tk req rs es =
        { tasks := tk
          response := .httpError 400 "frame_url is required for pipeline model"
          submitCalls := 0 }) ∧
    (req.upload_id = some uid → req.direct_urls = none → dictGet up uid = some u →
      req.settings.model = .seedream_kling → req.frame_url = none →
      api_generate up tk req rs es =
        { tasks := tk
          response := .httpError 400 "frame_url is required for pipeline model"
          submitCalls := 0 }) ∧
    (req.upload_id = some uid → req.direct_urls = none → dictGet up uid = none →
      api_generate up tk req rs es =
        { tasks := tk
          response := .httpError 404 ("Upload not found: " ++ uid)
          submitCalls := 0 }) := by
  rcases req with ⟨ui, du, se, fu⟩
  refine ⟨?_, ?_, ?_, ?_, ?_⟩
  · intro h1 h2
    subst h1; subst h2
    simp [api_generate, GenerateRequest.model_post_init]
  · intro h1 h2
    subst h1; subst h2
    simp [api_generate, GenerateRequest.model_post_init]
  · intro h1 h2 h3 h4
    subst h1; subst h2
    simp only at h3 h4
    subst h4
    simp [api_generate, GenerateRequest.model_post_init, generate_video,
      generate_video_resolved, h3]
  · intro h1 h2 h3 h4 h5
    subst h1; subst h2
    simp only at h4 h5
    subst h5
    simp [api_generate, GenerateRequest.model_post_init, generate_video,
      generate_video_resolved, h3, h4]
  · intro h1 h2 h3
    subst h1; subst h2
    simp [api_generate, GenerateRequest.model_post_init, generate_video, h3]

/-- Witness for C8: the four rejection shapes at concrete requests over
empty stores. -/
theorem C8_invalid_generate_rejected_before_submit_witness :
    api_generate [] [] reqNeither submitOK submitOK =
      { tasks := []
        response := .httpError 422 "Either upload_id or direct_urls must be provided"
        submitCalls := 0 } ∧
    api_generate [] [] reqBoth submitOK submitOK =
      { tasks := []
        response := .httpError 422 "Cannot provide both upload_id and direct_urls"
        submitCalls := 0 } ∧
    api_generate [] [] reqTwoStepNoFrameDirect submitOK submitOK =
      { tasks := []
        response := .httpError 400 "frame_url is required for pipeline model"
        submitCalls := 0 } ∧
    api_generate [] [] reqTwoStepNoFrameUnknownUpload submitOK submitOK =
      { tasks := []
        response := .httpError 404 ("Upload not found: " ++ "u0")
        submitCalls := 0 } :=
  ⟨(C8_invalid_generate_rejected_before_submit [] [] reqNeither submitOK submitOK
      "u0" { character_url := "c", reference_url := "r" }
      { character_url := "c", reference_url := "r" }).1 rfl rfl,
   (C8_invalid_generate_rejected_before_submit [] [] reqBoth submitOK submitOK
      "u1" { character_url := "https://cdn/c.png", reference_url := "https://cdn/r.mp4" }
      { character_url := "c", reference_url := "r" }).2.1 rfl rfl,
   (C8_invalid_generate_rejected_before_submit [] [] reqTwoStepNoFrameDirect submitOK submitOK
      "u0" { character_url := "https://cdn/c.png", reference_url := "https://cdn/r.mp4" }
      { character_url := "c", reference_url := "r" }).2.2.1 rfl rfl rfl rfl,
   (C8_invalid_generate_rejected_before_submit [] [] reqTwoStepNoFrameUnknownUpload submitOK
      submitOK "u0" { character_url := "c", reference_url := "r" }
      { character_url := "c", reference_url := "r" }).2.2.2.2 rfl rfl rfl⟩

/-- A SINGLE_STEP status request preserves the stored `pipeline_stage` and
never puts a stage into a successful response. -/
lemma step_runway_no_stage (task_id : String) (t : TaskRecord)
    (poll : FreepikStatusResult) (submit : FreepikCreateResult)
    (hm : t.model = .runway_act_two) :
    (get_task_status task_id t poll submit).task.pipeline_stage = t.pipeline_stage ∧
    ∀ resp : StatusResponse,
      (get_task_status task_id t poll submit).response = .ok resp →
      resp.pipeline_stage = none := by
  rcases t with ⟨uid, du, cu, ru, st0, se, mo, fu, ps, sti, kti, iu, rus⟩
  cases mo
  · simp only [get_task_status, mkStatusResponse]
    constructor
    · repeat' split <;> simp_all
    · intro resp h
      repeat' split at h <;> simp_all
      · rcases h with ⟨rfl⟩; rfl
      · rcases h with ⟨rfl⟩; rfl
  · simp at hm

/-- C9: SINGLE_STEP tasks never carry a defined pipeline stage — the
creation path stores `pipeline_stage = None`, a status request preserves
the stored value and never puts a stage into its response, and across any
sequence of status requests the stored stage remains `None`. -/
theorem C9_single_step_never_has_stage
    (tk : List (String × TaskRecord)) (req : GenerateRequest)
    (cu ru task_id : String) (rs es : FreepikCreateResult)
    (t r0 : TaskRecord) (poll : FreepikStatusResult) (submit : FreepikCreateResult)
    (resp : StatusResponse)
    (oracles : List (FreepikStatusResult × FreepikCreateResult)) :
    (req.settings.model = .runway_act_two → rs.success = true →
      dictGet (generate_video_resolved tk req cu ru rs es).tasks rs.task_id = some r0 →
      r0.pipeline_stage = none) ∧
    (t.model = .runway_act_two →
      (get_task_status task_id t poll submit).task.pipeline_stage = t.pipeline_stage) ∧
    (t.model = .runway_act_two →
      (get_task_status task_id t poll submit).response = .ok resp →
      resp.pipeline_stage = none) ∧
    (t.model = .runway_act_two → t.pipeline_stage = none →
      (runStatusRequests task_id t oracles).pipeline_stage = none) := by
  refine ⟨?_, ?_, ?_, ?_⟩
  · intro hm hs hget
    simp only [generate_video_resolved, hm] at hget
    simp only [hs] at hget
    simp [dictInsert, dictGet] at hget
    rw [← hget]
  · intro hm
    exact (step_runway_no_stage task_id t poll submit hm).1
  · intro hm
    exact (step_runway_no_stage task_id t poll submit hm).2 resp
  · intro hm hps
    induction oracles generalizing t with
    | nil => exact hps
    | cons o l ih =>
        exact ih ((get_task_status task_id t o.1 o.2).task)
          ((step_model_eq task_id t o.1 o.2).trans hm)
          (((step_runway_no_stage task_id t o.1 o.2 hm).1).trans hps)

/-- Witness for C9 at a concrete SINGLE_STEP creation and status
requests. -/
theorem C9_single_step_never_has_stage_witness :
    sampleSingleStepTask.pipeline_stage = none ∧
    (get_task_status "rw-1" sampleSingleStepTask pollInProgress submitOK).task.pipeline_stage
        = sampleSingleStepTask.pipeline_stage ∧
    respSingleInProgress.pipeline_stage = none ∧
    (runStatusRequests "rw-1" sampleSingleStepTask
        [(pollInProgress, submitOK), (pollCompleted, submitOK)]).pipeline_stage = none := by
  have h := C9_single_step_never_has_stage [] reqSingleDirect
    "https://cdn/c.png" "https://cdn/r.mp4" "rw-1" submitOK submitOK
    sampleSingleStepTask sampleSingleStepTask pollInProgress submitOK
    respSingleInProgress [(pollInProgress, submitOK), (pollCompleted, submitOK)]
  exact ⟨h.1 rfl rfl (by decide), h.2.1 rfl, h.2.2.1 rfl (by decide), h.2.2.2 rfl rfl⟩

/-- C10: the client-facing task id under which a created task is stored —
and which the generate response returns — is exactly the provider-assigned
id of the first provider sub-task (the runway task for SINGLE_STEP, the
image-edit sub-task for TWO_STEP, which is also stored as
`seedream_task_id`); the id is never locally generated, whatever id the
provider assigns. -/
theorem C10_task_id_is_provider_id
    (tk : List (String × TaskRecord)) (req : GenerateRequest)
    (cu ru f : String) (rs es : FreepikCreateResult) :
    (req.settings.model = .runway_act_two → rs.success = true →
      (generate_video_resolved tk req cu ru rs es).response
          = .ok { task_id := rs.task_id, status := rs.status } ∧
      ∃ r0 : TaskRecord,
        (generate_video_resolved tk req cu ru rs es).tasks
            = dictInsert tk rs.task_id r0 ∧
        dictGet (generate_video_resolved tk req cu ru rs es).tasks rs.task_id
            = some r0) ∧
    (req.settings.model = .seedream_kling → req.frame_url = some f →
      es.success = true →
      (generate_video_resolved tk req cu ru rs es).response
          = .ok { task_id := es.task_id, status := es.status } ∧
      ∃ r0 : TaskRecord,
        (generate_video_resolved tk req cu ru rs es).tasks
            = dictInsert tk es.task_id r0 ∧
        dictGet (generate_video_resolved tk req cu ru rs es).tasks es.task_id
            = some r0 ∧
        r0.seedream_task_id = some es.task_id) := by
  constructor
  · intro hm hs
    simp only [generate_video_resolved, hm]
    simp only [hs]
    refine ⟨by simp, ?_⟩
    exact ⟨_, rfl, by simp [dictInsert, dictGet]⟩
  · intro hm hf hs
    simp only [generate_video_resolved, hm, hf]
    simp only [hs]
    refine ⟨by simp, ?_⟩
    refine ⟨_, rfl, by simp [dictInsert, dictGet], rfl⟩

/-- Witness for C10 at concrete SINGLE_STEP and TWO_STEP creations. -/
theorem C10_task_id_is_provider_id_witness :
    ((generate_video_resolved [] reqSingleDirect "https://cdn/c.png" "https://cdn/r.mp4"
        submitOK submitOK).response
      = .ok { task_id := submitOK.task_id, status := submitOK.status } ∧
    ∃ r0 : TaskRecord,
      (generate_video_resolved [] reqSingleDirect "https://cdn/c.png" "https://cdn/r.mp4"
          submitOK submitOK).tasks
        = dictInsert [] submitOK.task_id r0 ∧
      dictGet (generate_video_resolved [] reqSingleDirect "https://cdn/c.png"
          "https://cdn/r.mp4" submitOK submitOK).tasks submitOK.task_id = some r0) ∧
    ((generate_video_resolved [] reqTwoStepFull "https://cdn/c.png" "https://cdn/r.mp4"
        submitOK submitOK).response
      = .ok { task_id := submitOK.task_id, status := submitOK.status } ∧
    ∃ r0 : TaskRecord,
      (generate_video_resolved [] reqTwoStepFull "https://cdn/c.png" "https://cdn/r.mp4"
          submitOK submitOK).tasks
        = dictInsert [] submitOK.task_id r0 ∧
      dictGet (generate_video_resolved [] reqTwoStepFull "https://cdn/c.png"
          "https://cdn/r.mp4" submitOK submitOK).tasks submitOK.task_id = some r0 ∧
      r0.seedream_task_id = some submitOK.task_id) := by
  have h := C10_task_id_is_provider_id [] reqSingleDirect
    "https://cdn/c.png" "https://cdn/r.mp4" "https://cdn/f.png" submitOK submitOK
  have h' := C10_task_id_is_provider_id [] reqTwoStepFull
    "https://cdn/c.png" "https://cdn/r.mp4" "https://cdn/f.png" submitOK submitOK
  exact ⟨h.1 rfl rfl, h'.2 rfl rfl rfl⟩

end FaceReplacement
